import Mathlib

/-!
Shallow embedding of the AI Protein Tracker repository.

Two components are modelled:
* the analysis gateway, `src/app/api/analyze/route.ts` — field validation,
  the greedy brace-span regular expression applied to the upstream reply,
  and the subsequent JSON parse;
* the client session tracker, `src/unnamed/part_000` — profile inputs,
  the derived daily goal and daily total, the meal-submission flow and
  `resetDay`.

JavaScript numbers are modelled as exact rationals, `Math.round` as
`jsRound`, and `JSON.parse` as an executable fuel-indexed parser covering
the fragment of JSON the gateway replies use.
-/

namespace ProteinTracker

/-- JSON values, as produced by `JSON.parse` in the gateway route.
Numbers are modelled as exact rationals. -/
inductive Json where
  | null : Json
  | bool (b : Bool) : Json
  | num (q : ℚ) : Json
  | str (s : String) : Json
  | arr (elems : List Json) : Json
  | obj (fields : List (String × Json)) : Json

/-- Whitespace accepted between JSON tokens. -/
def isWs (c : Char) : Bool :=
  c = ' ' || c = '\t' || c = '\n' || c = '\r'

/-- Drop leading JSON whitespace. -/
def skipWs : List Char → List Char
  | [] => []
  | c :: r => if isWs c then skipWs r else c :: r

/-- Translation of a single-character JSON string escape. -/
def escChar (e : Char) : Option Char :=
  if e = '"' then some '"'
  else if e = '\\' then some '\\'
  else if e = '/' then some '/'
  else if e = 'n' then some '\n'
  else if e = 't' then some '\t'
  else if e = 'r' then some '\r'
  else if e = 'b' then some (Char.ofNat 8)
  else if e = 'f' then some (Char.ofNat 12)
  else none

/-- Read the body of a JSON string after its opening quote, returning the
decoded characters and the input following the closing quote.  Unicode
escapes are not modelled (the gateway replies never use them). -/
def parseStrAux : Nat → List Char → Option (List Char × List Char)
  | 0, _ => none
  | _ + 1, [] => none
  | fuel + 1, c :: r =>
    if c = '"' then some ([], r)
    else if c = '\\' then
      match r with
      | [] => none
      | e :: r2 =>
        match escChar e with
        | some ec => (parseStrAux fuel r2).map (fun p => (ec :: p.1, p.2))
        | none => none
    else (parseStrAux fuel r).map (fun p => (c :: p.1, p.2))

/-- Consume leading decimal digits, returning their value, their count and
the rest of the input. -/
def digitsAux : List Char → Nat → Nat → Nat × Nat × List Char
  | [], acc, cnt => (acc, cnt, [])
  | c :: r, acc, cnt =>
    if c.isDigit then digitsAux r (10 * acc + (c.toNat - 48)) (cnt + 1)
    else (acc, cnt, c :: r)

/-- Fragment of the number grammar accepted by `JSON.parse`: optional
minus sign, integer part, optional fractional part.  Exponents are not
modelled (the gateway replies never use them). -/
def parseNum (l : List Char) : Option (ℚ × List Char) :=
  let p : Bool × List Char :=
    match l with
    | '-' :: r => (true, r)
    | _ => (false, l)
  match p.2 with
  | c :: _ =>
    if c.isDigit then
      let q := digitsAux p.2 0 0
      let v : ℚ × List Char :=
        match q.2.2 with
        | '.' :: d :: r =>
          if d.isDigit then
            let f := digitsAux (d :: r) 0 0
            ((q.1 : ℚ) + (f.1 : ℚ) / (10 : ℚ) ^ f.2.1, f.2.2)
          else ((q.1 : ℚ), '.' :: d :: r)
        | r => ((q.1 : ℚ), r)
      some (if p.1 then -v.1 else v.1, v.2)
    else none
  | [] => none

mutual

/-- Parse one JSON value; fuel bounds the recursion depth. -/
def parseVal : Nat → List Char → Option (Json × List Char)
  | 0, _ => none
  | fuel + 1, l =>
    match skipWs l with
    | [] => none
    | c :: r =>
      if c = '"' then
        (parseStrAux (r.length + 1) r).map (fun p => (Json.str (String.mk p.1), p.2))
      else if c = '\x7b' then
        match skipWs r with
        | '\x7d' :: r2 => some (Json.obj [], r2)
        | r2 => (parseObjItems fuel r2).map (fun p => (Json.obj p.1, p.2))
      else if c = '[' then
        match skipWs r with
        | ']' :: r2 => some (Json.arr [], r2)
        | r2 => (parseArrItems fuel r2).map (fun p => (Json.arr p.1, p.2))
      else if c = 't' then
        match r with
        | 'r' :: 'u' :: 'e' :: r2 => some (Json.bool true, r2)
        | _ => none
      else if c = 'f' then
        match r with
        | 'a' :: 'l' :: 's' :: 'e' :: r2 => some (Json.bool false, r2)
        | _ => none
      else if c = 'n' then
        match r with
        | 'u' :: 'l' :: 'l' :: r2 => some (Json.null, r2)
        | _ => none
      else (parseNum (c :: r)).map (fun p => (Json.num p.1, p.2))
termination_by structural fuel => fuel

/-- Parse the members of a non-empty JSON object, after its opening brace. -/
def parseObjItems : Nat → List Char → Option (List (String × Json) × List Char)
  | 0, _ => none
  | fuel + 1, l =>
    match skipWs l with
    | '"' :: r =>
      match parseStrAux (r.length + 1) r with
      | none => none
      | some (key, r2) =>
        match skipWs r2 with
        | ':' :: r3 =>
          match parseVal fuel r3 with
          | none => none
          | some (v, r4) =>
            match skipWs r4 with
            | ',' :: r5 =>
              (parseObjItems fuel r5).map (fun p => ((String.mk key, v) :: p.1, p.2))
            | '\x7d' :: r5 => some ([(String.mk key, v)], r5)
            | _ => none
        | _ => none
    | _ => none
termination_by structural fuel => fuel

/-- Parse the elements of a non-empty JSON array, after its opening bracket. -/
def parseArrItems : Nat → List Char → Option (List Json × List Char)
  | 0, _ => none
  | fuel + 1, l =>
    match parseVal fuel l with
    | none => none
    | some (v, r) =>
      match skipWs r with
      | ',' :: r2 => (parseArrItems fuel r2).map (fun p => (v :: p.1, p.2))
      | ']' :: r2 => some ([v], r2)
      | _ => none
termination_by structural fuel => fuel

end

/-- Model of `JSON.parse`: one value, then nothing but whitespace. -/
def jsonParse (s : String) : Except String Json :=
  let l := s.toList
  match parseVal (l.length + 1) l with
  | none => Except.error "Unexpected token in JSON at position 0"
  | some (v, rest) =>
    if (skipWs rest).isEmpty then Except.ok v
    else Except.error "Unexpected non-whitespace character after JSON"

/-- Index of the last closing brace in a character list, if any. -/
def lastRB : List Char → Option Nat
  | [] => none
  | c :: r =>
    match lastRB r with
    | some k => some (k + 1)
    | none => if c = '\x7d' then some 0 else none

/-- Index of the first opening brace in a character list, if any. -/
def firstLB : List Char → Option Nat
  | [] => none
  | c :: r => if c = '\x7b' then some 0 else (firstLB r).map (fun i => i + 1)

/-- Leftmost match of the greedy brace pattern applied at line 87 of the
gateway route: at each start position in turn, an opening brace, then the
longest stretch of arbitrary characters ending at a closing brace. -/
def regexMatch : List Char → Option (List Char)
  | [] => none
  | c :: r =>
    if c = '\x7b' then
      match lastRB r with
      | some k => some ('\x7b' :: r.take (k + 1))
      | none => regexMatch r
    else regexMatch r

/-- Whether a closing brace occurs in the list. -/
def hasRB : List Char → Bool
  | [] => false
  | c :: r => if c = '\x7d' then true else hasRB r

/-- Whether an opening brace occurs with a closing brace somewhere after
it, i.e. the reply contains a brace-delimited span. -/
def hasSpanB : List Char → Bool
  | [] => false
  | c :: r => if c = '\x7b' then hasRB r || hasSpanB r else hasSpanB r

/-- Body of the gateway's POST request, with each field either present or
absent. -/
structure AnalyzeRequest where
  image : Option String
  apiKey : Option String
  deriving DecidableEq

/-- Response produced by the gateway route: an HTTP status and a JSON
body. -/
structure ApiResponse where
  status : Nat
  body : Json

/-- JavaScript falsiness of an optional string field: absent fields and
the empty string are falsy, which is what the route's bare negation
tests. -/
def strFalsy : Option String → Bool
  | none => true
  | some s => s = ""

/-- Error body shape used by every error branch of the route. -/
def errBody (msg : String) : Json :=
  Json.obj [("error", Json.str msg)]

/-- Extraction-and-parse step of the gateway (route lines 81-94), applied
to the upstream model's reply content (`none` models a missing or empty
content, which the route rejects before matching). -/
def gatewayParse : Option String → ApiResponse
  | none => ⟨500, errBody "No response from OpenAI"⟩
  | some content =>
    if content = "" then ⟨500, errBody "No response from OpenAI"⟩
    else
      match regexMatch content.toList with
      | none => ⟨500, errBody "Invalid response format from OpenAI"⟩
      | some m =>
        match jsonParse (String.mk m) with
        | Except.error e => ⟨500, errBody e⟩
        | Except.ok v => ⟨200, v⟩

/-- The whole POST handler, parameterised by the upstream reply content.
The boolean records whether the upstream model was called: the two
validation branches return before any upstream request is constructed. -/
def gatewayPOST (req : AnalyzeRequest) (upstreamContent : Option String) :
    Bool × ApiResponse :=
  if strFalsy req.apiKey then
    (false, ⟨400, errBody "OpenAI API key is required"⟩)
  else if strFalsy req.image then
    (false, ⟨400, errBody "Image is required"⟩)
  else (true, gatewayParse upstreamContent)

/-- Prefix test on character lists. -/
def startsWithList : List Char → List Char → Bool
  | [], _ => true
  | _ :: _, [] => false
  | p :: ps, c :: cs => p = c && startsWithList ps cs

/-- Substring test on character lists. -/
def containsList (pat : List Char) : List Char → Bool
  | [] => startsWithList pat []
  | c :: r => startsWithList pat (c :: r) || containsList pat r

/-- Whether an error response's message mentions the given text. -/
def errMentions (resp : ApiResponse) (pat : String) : Bool :=
  match resp.body with
  | Json.obj (("error", Json.str m) :: _) => containsList pat.toList m.toList
  | _ => false

/-- Fitness goal selected in the profile form. -/
inductive FitnessGoal where
  | lose : FitnessGoal
  | maintain : FitnessGoal
  | gain : FitnessGoal
  deriving DecidableEq

/-- Multiplier expression from the daily-goal effect (part_000 line 32):
`goal === 'gain' ? 2.0 : goal === 'maintain' ? 1.6 : 1.2`. -/
def codeMultiplier (g : FitnessGoal) : ℚ :=
  if g = FitnessGoal.gain then 2 else if g = FitnessGoal.maintain then 8 / 5 else 6 / 5

/-- Multiplier table as the specification words it: lose 1.2, maintain 1.6,
gain 2.0. -/
def specMultiplier : FitnessGoal → ℚ
  | FitnessGoal.lose => 6 / 5
  | FitnessGoal.maintain => 8 / 5
  | FitnessGoal.gain => 2

/-- JavaScript's `Math.round`: round half toward positive infinity. -/
def jsRound (q : ℚ) : ℤ := ⌊q + 1 / 2⌋

/-- Derived daily protein goal (part_000 lines 31-34). -/
def dailyGoalOf (w : ℚ) (g : FitnessGoal) : ℤ := jsRound (w * codeMultiplier g)

/-- One identified food item in a meal analysis. -/
structure FoodItem where
  name : String
  quantity : String
  protein : ℚ

/-- One completed meal analysis appended to the history. -/
structure MealAnalysis where
  foods : List FoodItem
  totalProtein : ℚ
  timestamp : String

/-- Client component state of the session tracker: the `useState` fields of
the `Home` component. -/
structure TrackerState where
  apiKey : String
  weight : ℚ
  goal : FitnessGoal
  dailyGoal : ℤ
  selectedFile : Option String
  previewUrl : String
  currentAnalysis : Option MealAnalysis
  mealHistory : List MealAnalysis
  dailyTotal : ℚ
  error : String

/-- Initial values of the `useState` hooks. -/
def initState : TrackerState :=
  { apiKey := "", weight := 70, goal := FitnessGoal.maintain, dailyGoal := 112,
    selectedFile := none, previewUrl := "", currentAnalysis := none,
    mealHistory := [], dailyTotal := 0, error := "" }

/-- Effect on `[weight, goal]` (part_000 lines 31-34): recompute the daily
goal. -/
def recomputeGoal (s : TrackerState) : TrackerState :=
  { s with dailyGoal := dailyGoalOf s.weight s.goal }

/-- Effect on `[mealHistory]` (part_000 lines 36-39): recompute the daily
total with the same left fold as the source's `reduce`. -/
def recomputeTotal (s : TrackerState) : TrackerState :=
  { s with dailyTotal := s.mealHistory.foldl (fun a m => a + m.totalProtein) 0 }

/-- Weight input change handler (part_000 line 141), followed by the goal
effect.  The handler itself puts no bound on the entered number: the `min`
and `max` attributes only flag the field as invalid. -/
def setWeight (s : TrackerState) (w : ℚ) : TrackerState :=
  recomputeGoal { s with weight := w }

/-- Goal select change handler (part_000 line 148), followed by the goal
effect. -/
def setGoal (s : TrackerState) (g : FitnessGoal) : TrackerState :=
  recomputeGoal { s with goal := g }

/-- API-key input change handler (part_000 line 129). -/
def setApiKey (s : TrackerState) (k : String) : TrackerState :=
  { s with apiKey := k }

/-- File selection handler `handleFileSelect` (part_000 lines 41-50), in
the case where a file was actually picked. -/
def handleFileSelect (s : TrackerState) (name url : String) : TrackerState :=
  { s with selectedFile := some name, previewUrl := url, error := "",
           currentAnalysis := none }

/-- Outcome of one gateway invocation, as seen by the client. -/
inductive GatewayOutcome where
  | success (foods : List FoodItem) (totalProtein : ℚ) : GatewayOutcome
  | failure (msg : String) : GatewayOutcome

/-- Meal submission flow `analyzeImage` (part_000 lines 56-104).  Without a
selected file and a non-empty key it only sets the validation message.
Otherwise `setError('')` runs, the gateway is invoked from inside the
`reader.onloadend` callback, and on success the meal is appended and the
total recomputed.  On failure the `throw` happens inside that async
callback after the surrounding try/catch has already finished, so it is an
unhandled promise rejection: no state field is updated on the failure
path. -/
def analyzeImage (s : TrackerState) (outcome : GatewayOutcome) (ts : String) :
    TrackerState :=
  if s.selectedFile = none ∨ s.apiKey = "" then
    { s with error := "Please provide an OpenAI API key and select an image" }
  else
    let s1 := { s with error := "" }
    match outcome with
    | GatewayOutcome.success foods tp =>
      let m : MealAnalysis := ⟨foods, tp, ts⟩
      recomputeTotal { s1 with currentAnalysis := some m,
                               mealHistory := s1.mealHistory ++ [m] }
    | GatewayOutcome.failure _ => s1

/-- Reset button handler `resetDay` (part_000 lines 106-111), followed by
the total effect. -/
def resetDay (s : TrackerState) : TrackerState :=
  recomputeTotal { s with mealHistory := [], currentAnalysis := none,
                          selectedFile := none, previewUrl := "" }

/-- Derived progress percentage (part_000 line 113). -/
def progressPercentage (s : TrackerState) : ℚ :=
  min (s.dailyTotal / (s.dailyGoal : ℚ) * 100) 100

/-- Derived remaining grams (part_000 line 114). -/
def remaining (s : TrackerState) : ℚ :=
  max ((s.dailyGoal : ℚ) - s.dailyTotal) 0

/-- One user-visible event of the session tracker. -/
inductive Step : TrackerState → TrackerState → Prop where
  | apiKeyInput (s : TrackerState) (k : String) : Step s (setApiKey s k)
  | weightInput (s : TrackerState) (w : ℚ) : Step s (setWeight s w)
  | goalInput (s : TrackerState) (g : FitnessGoal) : Step s (setGoal s g)
  | fileSelect (s : TrackerState) (name url : String) :
      Step s (handleFileSelect s name url)
  | analyze (s : TrackerState) (outcome : GatewayOutcome) (ts : String) :
      Step s (analyzeImage s outcome ts)
  | reset (s : TrackerState) : Step s (resetDay s)

/-- States the session tracker can be in after any sequence of events. -/
inductive Reachable : TrackerState → Prop where
  | init : Reachable initState
  | step {s t : TrackerState} : Reachable s → Step s t → Reachable t

example : regexMatch ("a\x7bb\x7dc".toList) = some ("\x7bb\x7d".toList) := by decide

example :
    jsonParse "\x7b\"a\":[1,-3]\x7d" =
      Except.ok (Json.obj [("a", Json.arr [Json.num 1, Json.num (-3)])]) := rfl

lemma foldl_protein (L : List MealAnalysis) (a : ℚ) :
    L.foldl (fun x m => x + m.totalProtein) a =
      a + (L.map (fun m => m.totalProtein)).sum := by
  induction L generalizing a with
  | nil => simp
  | cons m L ih => simp [ih, add_assoc]

lemma reachable_dailyTotal {s : TrackerState} (h : Reachable s) :
    s.dailyTotal = (s.mealHistory.map (fun m => m.totalProtein)).sum := by
  induction h with
  | init => simp [initState]
  | step hr hstep ih =>
    cases hstep with
    | apiKeyInput k => simpa [setApiKey] using ih
    | weightInput w => simpa [setWeight, recomputeGoal] using ih
    | goalInput g => simpa [setGoal, recomputeGoal] using ih
    | fileSelect name url => simpa [handleFileSelect] using ih
    | analyze outcome ts =>
      rw [analyzeImage]
      split
      · simpa using ih
      · cases outcome with
        | success foods tp => simp [recomputeTotal, foldl_protein]
        | failure msg => simpa using ih
    | reset => simp [resetDay, recomputeTotal]

lemma lastRB_eq_none {l : List Char} (h : hasRB l = false) : lastRB l = none := by
  induction l with
  | nil => rfl
  | cons c r ih =>
    by_cases hc : c = '\x7d'
    · rw [hasRB, if_pos hc] at h
      exact absurd h (by decide)
    · rw [hasRB, if_neg hc] at h
      simp [lastRB, ih h, hc]

lemma regexMatch_eq_none {l : List Char} (h : hasSpanB l = false) :
    regexMatch l = none := by
  induction l with
  | nil => rfl
  | cons c r ih =>
    by_cases hc : c = '\x7b'
    · rw [hasSpanB, if_pos hc, Bool.or_eq_false_iff] at h
      simp [regexMatch, hc, lastRB_eq_none h.1, ih h.2]
    · rw [hasSpanB, if_neg hc] at h
      simp [regexMatch, hc, ih h]

/-- C1: for every weight in [30,200] and every goal, the derived daily goal
equals round(weight × multiplier) with the spec's multipliers 1.2/1.6/2.0;
in particular weight 70 with goal maintain yields 112. -/
theorem dailyGoal_formula :
    (∀ (w : ℚ) (g : FitnessGoal), 30 ≤ w → w ≤ 200 →
      dailyGoalOf w g = jsRound (w * specMultiplier g)) ∧
    dailyGoalOf 70 FitnessGoal.maintain = 112 := by
  constructor
  · intro w g _ _
    cases g <;> rfl
  · show jsRound (70 * codeMultiplier FitnessGoal.maintain) = 112
    have hm : codeMultiplier FitnessGoal.maintain = 8 / 5 := rfl
    rw [hm, jsRound]
    norm_num

/-- Witness for `dailyGoal_formula` at weight 31 with goal lose. -/
theorem dailyGoal_formula_witness :
    dailyGoalOf 31 FitnessGoal.lose = jsRound (31 * specMultiplier FitnessGoal.lose) :=
  dailyGoal_formula.1 31 FitnessGoal.lose (by norm_num) (by norm_num)

/-- Upstream reply of the C2 scenario: the JSON object surrounded by
prose. -/
def eggReply : String :=
  "Sure! \x7b\"foods\":[\x7b\"name\":\"Egg\",\"quantity\":\"50g\",\"protein\":6\x7d],\"totalProtein\":6\x7d Enjoy!"

/-- The nutrition object embedded in `eggReply`. -/
def eggJson : Json :=
  Json.obj [("foods", Json.arr [Json.obj [("name", Json.str "Egg"),
    ("quantity", Json.str "50g"), ("protein", Json.num 6)]]),
    ("totalProtein", Json.num 6)]

/-- C2: on the reply `Sure! ... Enjoy!` the gateway's extraction-and-parse
step returns exactly the embedded JSON object with status 200; the
surrounding prose is discarded. -/
theorem gateway_extracts_egg_json :
    gatewayParse (some eggReply) = ⟨200, eggJson⟩ := rfl

/-- C3: in every reachable state the daily total equals the sum of the meal
history's total proteins, and the state after resetDay always has daily
total 0. -/
theorem dailyTotal_sums_history (s : TrackerState) (h : Reachable s) :
    s.dailyTotal = (s.mealHistory.map (fun m => m.totalProtein)).sum ∧
    (resetDay s).dailyTotal = 0 :=
  ⟨reachable_dailyTotal h, by simp [resetDay, recomputeTotal]⟩

/-- Witness for `dailyTotal_sums_history` at the initial state. -/
theorem dailyTotal_sums_history_witness :
    initState.dailyTotal =
      (initState.mealHistory.map (fun m => m.totalProtein)).sum ∧
    (resetDay initState).dailyTotal = 0 :=
  dailyTotal_sums_history initState Reachable.init

/-- State reached by entering a key, selecting a file and analysing a meal
whose reported total protein is -5; the gateway does not validate upstream
protein values, so such a submission is accepted. -/
def negativeMealState : TrackerState :=
  analyzeImage (handleFileSelect (setApiKey initState "sk-test") "meal.jpg" "blob:1")
    (GatewayOutcome.success [] (-5)) "12:00"

/-- C4 counterexample: a reachable state whose progress percentage is
negative, hence outside [0,100]. -/
theorem progress_below_zero_reachable :
    Reachable negativeMealState ∧ progressPercentage negativeMealState < 0 := by
  constructor
  · exact Reachable.step (Reachable.step (Reachable.step Reachable.init
      (Step.apiKeyInput _ _)) (Step.fileSelect _ _ _)) (Step.analyze _ _ _)
  · have h1 : negativeMealState.dailyTotal = -5 := by
      simp [negativeMealState, analyzeImage, handleFileSelect, setApiKey,
        initState, recomputeTotal]
    have h2 : negativeMealState.dailyGoal = 112 := by
      simp [negativeMealState, analyzeImage, handleFileSelect, setApiKey,
        initState, recomputeTotal]
    have h3 : progressPercentage negativeMealState =
        min ((-5 : ℚ) / 112 * 100) 100 := by
      rw [progressPercentage, h1, h2]
      norm_num
    rw [h3]
    exact lt_of_le_of_lt (min_le_left _ _) (by norm_num)

/-- C4 amended: in every reachable state whose daily goal is positive and
whose daily total is nonnegative, the progress percentage lies in [0,100].
The unamended claim fails because the weight input accepts arbitrary
numbers and the gateway accepts arbitrary upstream protein values, so
reachable states with a negative ratio exist. -/
theorem progress_in_range (s : TrackerState) (h : Reachable s)
    (hg : 0 < s.dailyGoal) (ht : 0 ≤ s.dailyTotal) :
    0 ≤ progressPercentage s ∧ progressPercentage s ≤ 100 := by
  refine ⟨le_min ?_ (by norm_num), min_le_right _ _⟩
  have hg' : (0 : ℚ) < (s.dailyGoal : ℚ) := by exact_mod_cast hg
  exact mul_nonneg (div_nonneg ht hg'.le) (by norm_num)

/-- Witness for `progress_in_range` at the initial state. -/
theorem progress_in_range_witness :
    0 ≤ progressPercentage initState ∧ progressPercentage initState ≤ 100 :=
  progress_in_range initState Reachable.init (by norm_num [initState])
    (by norm_num [initState])

/-- C5 counterexample: when both fields are missing the route answers with
the key error only, so the response does not mention the image even though
the image field is absent. -/
theorem missing_both_fields_key_error_only :
    (AnalyzeRequest.mk none none).image = none ∧
    (gatewayPOST ⟨none, none⟩ none).2.status = 400 ∧
    errMentions (gatewayPOST ⟨none, none⟩ none).2 "image" = false ∧
    errMentions (gatewayPOST ⟨none, none⟩ none).2 "Image" = false := by
  decide

/-- C5 amended: a request with the key missing is answered 400 with an
error mentioning the key and no upstream call; a request with the key
present (non-falsy) but the image missing is answered 400 with an error
mentioning the image and no upstream call.  When both fields are missing
only the key error is produced, because the key check runs first. -/
theorem gateway_validation (req : AnalyzeRequest) (up : Option String) :
    (req.apiKey = none →
      (gatewayPOST req up).1 = false ∧ (gatewayPOST req up).2.status = 400 ∧
      errMentions (gatewayPOST req up).2 "key" = true) ∧
    (strFalsy req.apiKey = false → req.image = none →
      (gatewayPOST req up).1 = false ∧ (gatewayPOST req up).2.status = 400 ∧
      errMentions (gatewayPOST req up).2 "Image" = true) := by
  constructor
  · intro hk
    have hf : strFalsy req.apiKey = true := by rw [hk]; rfl
    have he : gatewayPOST req up =
        (false, ⟨400, errBody "OpenAI API key is required"⟩) := by
      simp [gatewayPOST, hf]
    rw [he]
    exact ⟨rfl, rfl, by decide⟩
  · intro hk hi
    have hf : strFalsy req.image = true := by rw [hi]; rfl
    have he : gatewayPOST req up = (false, ⟨400, errBody "Image is required"⟩) := by
      simp [gatewayPOST, hk, hf]
    rw [he]
    exact ⟨rfl, rfl, by decide⟩

/-- Witness for `gateway_validation`: the key-missing branch at a concrete
request. -/
theorem gateway_validation_witness :
    (gatewayPOST ⟨some "data:image/png", none⟩ none).1 = false ∧
    (gatewayPOST ⟨some "data:image/png", none⟩ none).2.status = 400 ∧
    errMentions (gatewayPOST ⟨some "data:image/png", none⟩ none).2 "key" = true :=
  (gateway_validation ⟨some "data:image/png", none⟩ none).1 rfl

/-- C6: with both fields valid, a reply with no brace-delimited span is
answered 500 with an `error`-string body, and a reply whose extracted span
is not valid JSON is answered with the same error shape. -/
theorem upstream_format_errors (req : AnalyzeRequest) (content : String)
    (hk : strFalsy req.apiKey = false) (hi : strFalsy req.image = false) :
    (hasSpanB content.toList = false →
      (gatewayPOST req (some content)).2.status = 500 ∧
      ∃ msg, (gatewayPOST req (some content)).2.body = errBody msg) ∧
    (∀ m e, regexMatch content.toList = some m →
      jsonParse (String.mk m) = Except.error e →
      (gatewayPOST req (some content)).2.status = 500 ∧
      ∃ msg, (gatewayPOST req (some content)).2.body = errBody msg) := by
  have hpost : gatewayPOST req (some content) = (true, gatewayParse (some content)) := by
    simp only [gatewayPOST, hk, hi, Bool.false_eq_true, if_false]
  constructor
  · intro hs
    rw [hpost]
    by_cases hempty : content = ""
    · subst hempty
      exact ⟨rfl, "No response from OpenAI", rfl⟩
    · have he : gatewayParse (some content) =
          ⟨500, errBody "Invalid response format from OpenAI"⟩ := by
        simp only [gatewayParse, if_neg hempty, regexMatch_eq_none hs]
      rw [he]
      exact ⟨rfl, "Invalid response format from OpenAI", rfl⟩
  · intro m e hm hparse
    rw [hpost]
    have hempty : content ≠ "" := by
      intro h0
      rw [h0] at hm
      exact Option.noConfusion ((rfl : regexMatch "".toList = none).symm.trans hm)
    have he : gatewayParse (some content) = ⟨500, errBody e⟩ := by
      simp only [gatewayParse, if_neg hempty, hm, hparse]
    rw [he]
    exact ⟨rfl, e, rfl⟩

/-- Witness for `upstream_format_errors`: a brace-free reply at a concrete
valid request. -/
theorem upstream_format_errors_witness :
    (gatewayPOST ⟨some "data:image/png", some "sk"⟩ (some "no meal visible")).2.status = 500 ∧
    ∃ msg, (gatewayPOST ⟨some "data:image/png", some "sk"⟩
      (some "no meal visible")).2.body = errBody msg :=
  (upstream_format_errors ⟨some "data:image/png", some "sk"⟩ "no meal visible"
    rfl rfl).1 (by decide)

/-- State ready for a submission: key entered and photo selected. -/
def readyState : TrackerState :=
  handleFileSelect (setApiKey initState "sk-key") "lunch.jpg" "blob:2"

/-- C7: when the gateway fails, the meal history is indeed left unchanged,
but the error message is not surfaced: the error field keeps the empty
string cleared at submission start, because the throw inside the
`reader.onloadend` async callback escapes the surrounding try/catch as an
unhandled promise rejection. -/
theorem gateway_failure_not_surfaced :
    (analyzeImage readyState (GatewayOutcome.failure "Invalid API key") "12:01").mealHistory
      = readyState.mealHistory ∧
    (analyzeImage readyState (GatewayOutcome.failure "Invalid API key") "12:01").error
      = "" ∧
    "Invalid API key" ≠ "" := by
  refine ⟨?_, ?_, by decide⟩ <;>
    simp [analyzeImage, readyState, handleFileSelect, setApiKey, initState]

/-- C8: resetDay empties the meal history and clears the pending selection,
preview and current analysis, while weight, goal and the derived daily goal
are untouched, in every state. -/
theorem resetDay_frame (s : TrackerState) :
    (resetDay s).mealHistory = [] ∧ (resetDay s).selectedFile = none ∧
    (resetDay s).previewUrl = "" ∧ (resetDay s).currentAnalysis = none ∧
    (resetDay s).weight = s.weight ∧ (resetDay s).goal = s.goal ∧
    (resetDay s).dailyGoal = s.dailyGoal := by
  simp [resetDay, recomputeTotal]

/-- C9: in every reachable state, remaining equals
max(dailyGoal - dailyTotal, 0) and is therefore nonnegative even when the
total exceeds the goal. -/
theorem remaining_clamped (s : TrackerState) (h : Reachable s) :
    remaining s = max ((s.dailyGoal : ℚ) - s.dailyTotal) 0 ∧ 0 ≤ remaining s :=
  ⟨rfl, le_max_right _ _⟩

/-- Witness for `remaining_clamped` at the initial state. -/
theorem remaining_clamped_witness :
    remaining initState = max ((initState.dailyGoal : ℚ) - initState.dailyTotal) 0 ∧
    0 ≤ remaining initState :=
  remaining_clamped initState Reachable.init

/-- C10 counterexample: a reply consisting of a closing brace followed by
an opening brace contains both braces, yet the pattern finds no match, so
nothing is extracted and the route reports the format error. -/
theorem brace_pair_without_span :
    ("\x7d\x7b".toList).contains '\x7b' = true ∧
    ("\x7d\x7b".toList).contains '\x7d' = true ∧
    regexMatch ("\x7d\x7b".toList) = none ∧
    (gatewayParse (some "\x7d\x7b")).status = 500 := by
  decide

/-- C10 amended: whenever the reply's last closing brace occurs after its
first opening brace, the extracted substring runs from the first opening
brace to the last closing brace, so closing braces in trailing prose are
included in the span passed to the JSON parse.  Without that ordering
requirement the claim fails, as a reply whose only closing brace precedes
its only opening brace produces no match at all. -/
theorem regexMatch_greedy_span (l : List Char) (i j : Nat)
    (hi : firstLB l = some i) (hj : lastRB l = some j) (hij : i < j) :
    regexMatch l = some ((l.drop i).take (j - i + 1)) := by
  induction l generalizing i j with
  | nil => exact Option.noConfusion hi
  | cons c r ih =>
    by_cases hc : c = '\x7b'
    · rw [firstLB, if_pos hc] at hi
      injection hi with hi0
      subst hi0
      cases hrk : lastRB r with
      | none =>
        simp only [lastRB, hrk] at hj
        by_cases hc2 : c = '\x7d'
        · rw [if_pos hc2] at hj
          injection hj with hj0
          omega
        · rw [if_neg hc2] at hj
          exact Option.noConfusion hj
      | some k =>
        simp only [lastRB, hrk] at hj
        injection hj with hjk
        subst hjk
        subst hc
        simp [regexMatch, hrk, List.take_succ_cons]
    · rw [firstLB, if_neg hc] at hi
      cases hfr : firstLB r with
      | none =>
        rw [hfr] at hi
        exact Option.noConfusion hi
      | some i' =>
        rw [hfr] at hi
        injection hi with hi'
        have hi2 : i' + 1 = i := by simpa using hi'
        subst hi2
        cases hrk : lastRB r with
        | none =>
          simp only [lastRB, hrk] at hj
          by_cases hc2 : c = '\x7d'
          · rw [if_pos hc2] at hj
            injection hj with hj0
            omega
          · rw [if_neg hc2] at hj
            exact Option.noConfusion hj
        | some k =>
          simp only [lastRB, hrk] at hj
          injection hj with hjk
          subst hjk
          have hik : i' < k := by omega
          simp only [regexMatch, hc, if_false, List.drop_succ_cons,
            Nat.succ_sub_succ]
          exact ih i' k hfr hrk hik

/-- Witness for `regexMatch_greedy_span`: in `a{b}c}d` the span runs from
the brace at index 1 to the last closing brace at index 5, including the
prose between the two closing braces. -/
theorem regexMatch_greedy_span_witness :
    regexMatch ("a\x7bb\x7dc\x7dd".toList) =
      some ((("a\x7bb\x7dc\x7dd".toList).drop 1).take (5 - 1 + 1)) :=
  regexMatch_greedy_span ("a\x7bb\x7dc\x7dd".toList) 1 5 (by decide) (by decide)
    (by decide)

end ProteinTracker
